import Mathlib

/-!
Shallow embedding of the spirograph application (`src/main.rs`).

The application is a single-threaded, event-driven renderer:

* `Spirograph` holds the three shape coefficients `l`, `k`, `r`
  (f64 fields, modelled as real numbers);
* `SpirographIter` is the incremental point generator: it owns a
  `Spirograph`, the current curve parameter `now` and the fixed step
  `width`; its `next` evaluates the curve at `now`, advances `now` by
  `width` and always returns `some`;
* `Canvas` wraps the 500x500 drawing surface; we record the sequence of
  context calls (`beginPath`, `lineTo`, `moveTo`, `stroke`) issued to it;
* `Model` is the Yew component state; `Model.update` is the event handler
  for `Tick`, `LSlider` and `KSlider` messages, returning `none` exactly
  where the Rust code would panic (the `unwrap` on the iterator).

Floating-point arithmetic is idealised as real arithmetic with
`Real.cos` / `Real.sin` for the f64 trigonometric calls.
-/

noncomputable section

/-- The shape coefficients of the curve, from `struct Spirograph`:
`l` is the distance of the defining point from the centre of the inner
circle, `k` the ratio of the inner circle to the outer one, `r` the radius
of the outer circle. -/
structure Spirograph where
  l : ℝ
  k : ℝ
  r : ℝ

/-- `Spirograph::new(l, k, r)`. -/
def Spirograph.new (l k r : ℝ) : Spirograph :=
  { l := l, k := k, r := r }

/-- `Spirograph::at(self, t)`: the point of the curve at parameter `t`.
Mirrors the two expressions computed in the Rust source. -/
def Spirograph.«at» (p : Spirograph) (t : ℝ) : ℝ × ℝ :=
  (p.r * ((1 - p.k) * Real.cos t + p.l * p.k * Real.cos (t * (1 - p.k) / p.k)),
   p.r * ((1 - p.k) * Real.sin t - p.l * p.k * Real.sin (t * (1 - p.k) / p.k)))

/-- The generator state, from `struct SpirographIter`: the curve `s`, the
current parameter value `now` and the fixed step `width`. -/
structure SpirographIter where
  s : Spirograph
  now : ℝ
  width : ℝ

/-- `Spirograph::iter(self, width)`: a generator starting at `now = 0.0`. -/
def Spirograph.iter (s : Spirograph) (width : ℝ) : SpirographIter :=
  { s := s, now := 0.0, width := width }

/-- `<SpirographIter as Iterator>::next`: evaluates the curve at the current
`now`, advances `now` by `width`, and returns `Some` of the point together
with the successor state (the Rust method mutates `self` in place; we return
the updated state explicitly). -/
def SpirographIter.next (it : SpirographIter) :
    Option ((ℝ × ℝ) × SpirographIter) :=
  some (it.s.«at» it.now, { it with now := it.now + it.width })

/-- Iterating `next` a given number of times, keeping only the state. -/
def SpirographIter.nextN : ℕ → SpirographIter → SpirographIter
  | 0, it => it
  | n + 1, it =>
    match it.next with
    | some (_, it2) => SpirographIter.nextN n it2
    | none => it

/-- One call issued to the canvas 2d context. -/
inductive CanvasOp where
  | beginPath : CanvasOp
  | lineTo (x y : ℝ) : CanvasOp
  | moveTo (x y : ℝ) : CanvasOp
  | stroke : CanvasOp
deriving DecidableEq

/-- The drawing surface, from `struct Canvas`: the element's dimensions and
the sequence of context calls issued so far. -/
structure Canvas where
  width : ℕ
  height : ℕ
  ops : List CanvasOp

/-- `Canvas::new()`: a fresh 500x500 canvas on which `begin_path` has been
called once. -/
def Canvas.new : Canvas :=
  { width := 500, height := 500, ops := [CanvasOp.beginPath] }

/-- `Canvas::line_to`. -/
def Canvas.line_to (c : Canvas) (x y : ℝ) : Canvas :=
  { c with ops := c.ops ++ [CanvasOp.lineTo x y] }

/-- `Canvas::move_to`. -/
def Canvas.move_to (c : Canvas) (x y : ℝ) : Canvas :=
  { c with ops := c.ops ++ [CanvasOp.moveTo x y] }

/-- `Canvas::stroke`. -/
def Canvas.stroke (c : Canvas) : Canvas :=
  { c with ops := c.ops ++ [CanvasOp.stroke] }

/-- The component messages, from `enum Msg`. -/
inductive Msg where
  | Tick : Msg
  | LSlider (v : ℝ) : Msg
  | KSlider (v : ℝ) : Msg

/-- The component state, from `struct Model` (the `Interval` handle carries
no state beyond its period, recorded separately in `intervalPeriodMs`). -/
structure Model where
  canvas : Canvas
  spirograph : SpirographIter

/-- The timer period passed to `Interval::new` in `Model::create`. -/
def intervalPeriodMs : ℕ := 12

/-- `Model::create`: fresh canvas and the generator
`Spirograph::new(0.22, 0.46, 150.).iter(0.15)`. -/
def Model.create : Model :=
  { canvas := Canvas.new,
    spirograph := (Spirograph.new 0.22 0.46 150).iter 0.15 }

/-- `Model::update`: the event handler.  `Tick` pulls one point from the
generator and issues `line_to(250 + x, 250 + y)` then `stroke` on the
current canvas; `LSlider(l)` / `KSlider(k)` overwrite the corresponding
coefficient, reset `now` to `0`, and replace the canvas with `Canvas::new()`.
The `none` result corresponds to the `unwrap` panic on an empty iterator,
which never happens (`SpirographIter.next` is always `some`). -/
def Model.update (m : Model) : Msg → Option Model
  | Msg.Tick =>
    match m.spirograph.next with
    | some ((x, y), it) =>
      some { m with
             canvas := (m.canvas.line_to (250 + x) (250 + y)).stroke,
             spirograph := it }
    | none => none
  | Msg.LSlider l =>
    some { canvas := Canvas.new,
           spirograph := { m.spirograph with
                           s := { m.spirograph.s with l := l },
                           now := 0 } }
  | Msg.KSlider k =>
    some { canvas := Canvas.new,
           spirograph := { m.spirograph with
                           s := { m.spirograph.s with k := k },
                           now := 0 } }

/-- `f64::clamp(self, min, max)` as implemented in Rust: values below `lo`
become `lo`, values above `hi` become `hi`. -/
def fclamp (x lo hi : ℝ) : ℝ :=
  if x < lo then lo else if x > hi then hi else x

/-- The `cb` closure in `Model::view`: the raw slider value is divided by
`100` and clamped to `[0.01, 0.99]` before being sent as a message. -/
def cb (value : ℝ) : ℝ :=
  fclamp (value / 100) 0.01 0.99

/-- Modelled from the spec formulas for the curve:
`x = r*((1-k)*cos(t) + l*k*cos(t*(1-k)/k))` and
`y = r*((1-k)*sin(t) - l*k*sin(t*(1-k)/k))`; stated side of the refinement
for the `Spirograph.«at»` contract. -/
def specCurveAt (l k r t : ℝ) : ℝ × ℝ :=
  (r * ((1 - k) * Real.cos t + l * k * Real.cos (t * (1 - k) / k)),
   r * ((1 - k) * Real.sin t - l * k * Real.sin (t * (1 - k) / k)))

/-- `checkedDiv a b`: division that signals the division-by-zero error case
instead of defaulting it. -/
def checkedDiv (a b : ℝ) : Option ℝ :=
  if b = 0 then none else some (a / b)

/-- `Spirograph.«at»` with the two divisions by `k` made explicit as
checked divisions: `none` marks the (unreachable) division-by-zero error
branch. -/
def Spirograph.atChecked (p : Spirograph) (t : ℝ) : Option (ℝ × ℝ) := do
  let ux ← checkedDiv (t * (1 - p.k)) p.k
  let uy ← checkedDiv (t * (1 - p.k)) p.k
  pure (p.r * ((1 - p.k) * Real.cos t + p.l * p.k * Real.cos ux),
        p.r * ((1 - p.k) * Real.sin t - p.l * p.k * Real.sin uy))

end

/-- C1: for every parameter triple with `k ≠ 0` and every `t`, the curve
model `Spirograph.«at»` returns exactly the pair
`(r*((1-k)*cos t + l*k*cos (t*(1-k)/k)), r*((1-k)*sin t - l*k*sin (t*(1-k)/k)))`
of the specification, as a pure function. -/
theorem at_matches_spec_formula (p : Spirograph) (t : ℝ) (hk : p.k ≠ 0) :
    p.«at» t = specCurveAt p.l p.k p.r t :=
  rfl

/-- Witness for C1 at `l = 0.22`, `k = 0.46`, `r = 150`, `t = 1`. -/
theorem at_matches_spec_formula_witness :
    (Spirograph.new 0.22 0.46 150).k ≠ 0 ∧
    (Spirograph.new 0.22 0.46 150).«at» 1 = specCurveAt 0.22 0.46 150 1 :=
  ⟨by norm_num [Spirograph.new],
   at_matches_spec_formula (Spirograph.new 0.22 0.46 150) 1
     (by norm_num [Spirograph.new])⟩

/-- C2: `next` always succeeds, returning the point of the curve at the
pre-advance parameter `now` together with the state whose `now` has been
advanced by `width`; consequently `N` calls to `next` advance `now` by
exactly `N * width`. -/
theorem next_point_and_advance :
    (∀ it : SpirographIter,
      it.next = some (it.s.«at» it.now, { it with now := it.now + it.width })) ∧
    (∀ (N : ℕ) (it : SpirographIter),
      (SpirographIter.nextN N it).now = it.now + (N : ℝ) * it.width) := by
  constructor
  · intro it
    rfl
  · intro N
    induction N with
    | zero => intro it; simp [SpirographIter.nextN]
    | succ n ih =>
      intro it
      have h : SpirographIter.nextN (n + 1) it =
          SpirographIter.nextN n { it with now := it.now + it.width } := rfl
      rw [h, ih]
      push_cast
      ring

/-- C5 (counterexample): at `l = 0.22`, `k = 0.46`, `r = 150`, `t = 0` the
curve point is not `(81.0, 0.0)`: the x-coordinate is
`150*((1-0.46) + 0.22*0.46) = 96.18`, not `150*(1-0.46) = 81`. -/
theorem at_zero_ne_81 :
    Spirograph.«at» (Spirograph.new 0.22 0.46 150) 0 ≠ (81.0, 0.0) := by
  intro h
  have hx := congrArg Prod.fst h
  simp only [Spirograph.«at», Spirograph.new] at hx
  norm_num [Real.cos_zero] at hx

/-- C5 (amended): at `l = 0.22`, `k = 0.46`, `r = 150`, `t = 0` the curve
point is exactly `(150*(1-0.46+0.22*0.46), 0) = (96.18, 0.0)`, since
`cos 0 = 1` and `sin 0 = 0`. -/
theorem at_zero_value :
    Spirograph.«at» (Spirograph.new 0.22 0.46 150) 0 = (96.18, 0) := by
  simp only [Spirograph.«at», Spirograph.new, Prod.mk.injEq]
  norm_num [Real.cos_zero, Real.sin_zero]

/-- C6: for `k ∈ [0.01, 0.99]` the checked evaluation of the curve never
takes the division-by-zero error branch: it returns `some` of exactly the
point computed by `Spirograph.«at»`, for every `l`, `r` and `t`. -/
theorem atChecked_total (p : Spirograph) (t : ℝ)
    (hk1 : 0.01 ≤ p.k) (hk2 : p.k ≤ 0.99) :
    p.atChecked t = some (p.«at» t) := by
  have hk : p.k ≠ 0 := by intro h; rw [h] at hk1; norm_num at hk1
  simp [Spirograph.atChecked, checkedDiv, Spirograph.«at», hk]

/-- Witness for C6 at `l = 0.22`, `k = 0.46`, `r = 150`, `t = 0`. -/
theorem atChecked_total_witness :
    0.01 ≤ (Spirograph.new 0.22 0.46 150).k ∧
    (Spirograph.new 0.22 0.46 150).k ≤ 0.99 ∧
    (Spirograph.new 0.22 0.46 150).atChecked 0 =
      some ((Spirograph.new 0.22 0.46 150).«at» 0) :=
  ⟨by norm_num [Spirograph.new], by norm_num [Spirograph.new],
   atChecked_total (Spirograph.new 0.22 0.46 150) 0
     (by norm_num [Spirograph.new]) (by norm_num [Spirograph.new])⟩

/-- Core inequality behind the bounding-disk invariant: for unit-circle
pairs `(c1, s1)` and `(c2, s2)` with `cpl = cos` of the summed angle,
`0 ≤ a ≤ 1` and `0 ≤ b`, the point `(r*(a*c1 + b*c2), r*(a*s1 - b*s2))`
lies in the disk of radius `r*(1+b)`. -/
theorem disk_core (a b c1 s1 c2 s2 cpl r : ℝ)
    (hs1 : s1 ^ 2 + c1 ^ 2 = 1) (hs2 : s2 ^ 2 + c2 ^ 2 = 1)
    (hadd : cpl = c1 * c2 - s1 * s2) (hcle : cpl ≤ 1)
    (ha0 : 0 ≤ a) (ha1 : a ≤ 1) (hb0 : 0 ≤ b) :
    (r * (a * c1 + b * c2)) ^ 2 + (r * (a * s1 - b * s2)) ^ 2 ≤
      (r * (1 + b)) ^ 2 := by
  have key : (a * c1 + b * c2) ^ 2 + (a * s1 - b * s2) ^ 2
      = a ^ 2 + b ^ 2 + 2 * a * b * cpl := by
    linear_combination a ^ 2 * hs1 + b ^ 2 * hs2 - 2 * a * b * hadd
  have hab : 0 ≤ a * b := mul_nonneg ha0 hb0
  have hS : (a * c1 + b * c2) ^ 2 + (a * s1 - b * s2) ^ 2 ≤ (1 + b) ^ 2 := by
    rw [key]
    nlinarith [mul_nonneg hab (sub_nonneg.mpr hcle),
      mul_nonneg hb0 (sub_nonneg.mpr ha1),
      mul_nonneg (sub_nonneg.mpr ha1) (by linarith : (0:ℝ) ≤ 1 + a)]
  calc (r * (a * c1 + b * c2)) ^ 2 + (r * (a * s1 - b * s2)) ^ 2
      = r ^ 2 * ((a * c1 + b * c2) ^ 2 + (a * s1 - b * s2) ^ 2) := by ring
    _ ≤ r ^ 2 * (1 + b) ^ 2 := mul_le_mul_of_nonneg_left hS (sq_nonneg r)
    _ = (r * (1 + b)) ^ 2 := by ring

/-- C7: for `k ∈ [0.01, 0.99]`, `l ∈ [0.01, 0.99]` and every `t`, the point
produced by `Spirograph.«at»` lies in the disk of radius `r*(1 + l*k)`
centred at the origin: `x^2 + y^2 ≤ (r*(1 + l*k))^2`. -/
theorem at_in_disk (p : Spirograph) (t : ℝ)
    (hk1 : 0.01 ≤ p.k) (hk2 : p.k ≤ 0.99)
    (hl1 : 0.01 ≤ p.l) (hl2 : p.l ≤ 0.99) :
    (p.«at» t).1 ^ 2 + (p.«at» t).2 ^ 2 ≤ (p.r * (1 + p.l * p.k)) ^ 2 := by
  have h := disk_core (1 - p.k) (p.l * p.k)
      (Real.cos t) (Real.sin t)
      (Real.cos (t * (1 - p.k) / p.k)) (Real.sin (t * (1 - p.k) / p.k))
      (Real.cos (t + t * (1 - p.k) / p.k)) p.r
      (Real.sin_sq_add_cos_sq t)
      (Real.sin_sq_add_cos_sq (t * (1 - p.k) / p.k))
      (Real.cos_add t (t * (1 - p.k) / p.k))
      (Real.cos_le_one (t + t * (1 - p.k) / p.k))
      (by linarith) (by linarith)
      (mul_nonneg (by linarith) (by linarith))
  simpa [Spirograph.«at»] using h

/-- Witness for C7 at `l = 0.22`, `k = 0.46`, `r = 150`, `t = 1`. -/
theorem at_in_disk_witness :
    0.01 ≤ (Spirograph.new 0.22 0.46 150).k ∧
    (Spirograph.new 0.22 0.46 150).k ≤ 0.99 ∧
    0.01 ≤ (Spirograph.new 0.22 0.46 150).l ∧
    (Spirograph.new 0.22 0.46 150).l ≤ 0.99 ∧
    ((Spirograph.new 0.22 0.46 150).«at» 1).1 ^ 2 +
        ((Spirograph.new 0.22 0.46 150).«at» 1).2 ^ 2 ≤
      ((Spirograph.new 0.22 0.46 150).r *
        (1 + (Spirograph.new 0.22 0.46 150).l *
          (Spirograph.new 0.22 0.46 150).k)) ^ 2 :=
  ⟨by norm_num [Spirograph.new], by norm_num [Spirograph.new],
   by norm_num [Spirograph.new], by norm_num [Spirograph.new],
   at_in_disk (Spirograph.new 0.22 0.46 150) 1
     (by norm_num [Spirograph.new]) (by norm_num [Spirograph.new])
     (by norm_num [Spirograph.new]) (by norm_num [Spirograph.new])⟩

/-- C3: every parameter-change event (`LSlider v` or `KSlider v`) resets the
generator's `now` to `0` and replaces the canvas with a fresh `Canvas.new`,
and the immediately following `Tick` draws the point of the new parameters
at `t = 0` (translated by the centre offset), not a point at the pre-reset
`now`. -/
theorem param_change_resets :
    ∀ (m : Model) (v : ℝ),
      m.update (Msg.LSlider v) =
        some { canvas := Canvas.new,
               spirograph := { m.spirograph with
                               s := { m.spirograph.s with l := v },
                               now := 0 } } ∧
      m.update (Msg.KSlider v) =
        some { canvas := Canvas.new,
               spirograph := { m.spirograph with
                               s := { m.spirograph.s with k := v },
                               now := 0 } } ∧
      (m.update (Msg.LSlider v)).bind (fun m2 => m2.update Msg.Tick) =
        some { canvas :=
                 (Canvas.new.line_to
                   (250 + (Spirograph.«at» { m.spirograph.s with l := v } 0).1)
                   (250 + (Spirograph.«at» { m.spirograph.s with l := v } 0).2)).stroke,
               spirograph := { m.spirograph with
                               s := { m.spirograph.s with l := v },
                               now := 0 + m.spirograph.width } } ∧
      (m.update (Msg.KSlider v)).bind (fun m2 => m2.update Msg.Tick) =
        some { canvas :=
                 (Canvas.new.line_to
                   (250 + (Spirograph.«at» { m.spirograph.s with k := v } 0).1)
                   (250 + (Spirograph.«at» { m.spirograph.s with k := v } 0).2)).stroke,
               spirograph := { m.spirograph with
                               s := { m.spirograph.s with k := v },
                               now := 0 + m.spirograph.width } } :=
  fun _ _ => ⟨rfl, rfl, rfl, rfl⟩

/-- C4: every raw slider value is clamped by the `cb` callback into
`[0.01, 0.99]` before reaching the model, the stored coefficient is exactly
the clamped value, and the raw value `0` yields `k = 0.01`, never `0`. -/
theorem slider_values_clamped :
    (∀ raw : ℝ, 0.01 ≤ cb raw ∧ cb raw ≤ 0.99) ∧
    cb 0 = 0.01 ∧
    (∀ (m : Model) (raw : ℝ),
      (m.update (Msg.KSlider (cb raw))).map (fun m2 => m2.spirograph.s.k) =
        some (cb raw) ∧
      (m.update (Msg.LSlider (cb raw))).map (fun m2 => m2.spirograph.s.l) =
        some (cb raw)) ∧
    (∀ m : Model,
      (m.update (Msg.KSlider (cb 0))).map (fun m2 => m2.spirograph.s.k) =
        some 0.01) := by
  have hcb0 : cb 0 = 0.01 := by norm_num [cb, fclamp]
  refine ⟨?_, hcb0, fun m raw => ⟨rfl, rfl⟩, fun m => ?_⟩
  · intro raw
    unfold cb fclamp
    split_ifs with h1 h2
    · norm_num
    · norm_num
    · constructor <;> linarith
  · rw [hcb0]
    rfl

/-- C8: a `Tick` pulls exactly one point `(x, y)` from the generator at the
current `now`, advances the generator, and appends to the current canvas
exactly one `lineTo (250 + x) (250 + y)` followed by one `stroke` — and a
`line_to` followed by a `stroke` extends the op sequence by exactly those
two calls and nothing else. -/
theorem tick_draws_one_segment :
    (∀ m : Model,
      m.update Msg.Tick =
        some { canvas :=
                 (m.canvas.line_to
                   (250 + (m.spirograph.s.«at» m.spirograph.now).1)
                   (250 + (m.spirograph.s.«at» m.spirograph.now).2)).stroke,
               spirograph := { m.spirograph with
                               now := m.spirograph.now + m.spirograph.width } }) ∧
    (∀ (c : Canvas) (x y : ℝ),
      ((c.line_to x y).stroke).ops =
        c.ops ++ [CanvasOp.lineTo x y, CanvasOp.stroke]) := by
  refine ⟨fun m => rfl, fun c x y => ?_⟩
  simp [Canvas.line_to, Canvas.stroke]

/-- C9: no handler changes the step `width`; a `Tick` leaves all of `l`,
`k`, `r` unchanged; `LSlider v` sets `l` to `v` and leaves `k` and `r`
unchanged; `KSlider v` sets `k` to `v` and leaves `l` and `r` unchanged. -/
theorem update_frame_conditions :
    (∀ (m : Model) (msg : Msg),
      (m.update msg).map (fun m2 => m2.spirograph.width) =
        some m.spirograph.width) ∧
    (∀ m : Model,
      (m.update Msg.Tick).map
          (fun m2 => (m2.spirograph.s.l, m2.spirograph.s.k, m2.spirograph.s.r)) =
        some (m.spirograph.s.l, m.spirograph.s.k, m.spirograph.s.r)) ∧
    (∀ (m : Model) (v : ℝ),
      (m.update (Msg.LSlider v)).map
          (fun m2 => (m2.spirograph.s.k, m2.spirograph.s.r)) =
        some (m.spirograph.s.k, m.spirograph.s.r) ∧
      (m.update (Msg.LSlider v)).map (fun m2 => m2.spirograph.s.l) = some v) ∧
    (∀ (m : Model) (v : ℝ),
      (m.update (Msg.KSlider v)).map
          (fun m2 => (m2.spirograph.s.l, m2.spirograph.s.r)) =
        some (m.spirograph.s.l, m.spirograph.s.r) ∧
      (m.update (Msg.KSlider v)).map (fun m2 => m2.spirograph.s.k) = some v) := by
  refine ⟨fun m msg => ?_, fun m => rfl,
    fun m v => ⟨rfl, rfl⟩, fun m v => ⟨rfl, rfl⟩⟩
  cases msg <;> rfl

/-- C10: at startup the model holds exactly `l = 0.22`, `k = 0.46`,
`r = 150`, step width `0.15`, `now = 0`; the timer period is `12`; the
canvas is 500 by 500; and the centre offset added on every `Tick` is
`(250, 250)`. -/
theorem startup_constants :
    Model.create.spirograph.s.l = 0.22 ∧
    Model.create.spirograph.s.k = 0.46 ∧
    Model.create.spirograph.s.r = 150 ∧
    Model.create.spirograph.width = 0.15 ∧
    Model.create.spirograph.now = 0 ∧
    intervalPeriodMs = 12 ∧
    Canvas.new.width = 500 ∧
    Canvas.new.height = 500 ∧
    Model.create.canvas = Canvas.new ∧
    ∀ m : Model,
      (m.update Msg.Tick).map (fun m2 => m2.canvas.ops) =
        some (m.canvas.ops ++
          [CanvasOp.lineTo (250 + (m.spirograph.s.«at» m.spirograph.now).1)
             (250 + (m.spirograph.s.«at» m.spirograph.now).2),
           CanvasOp.stroke]) := by
  refine ⟨rfl, rfl, rfl, rfl, ?_, rfl, rfl, rfl, rfl, fun m => ?_⟩
  · norm_num [Model.create, Spirograph.iter]
  · simp [Model.update, SpirographIter.next, Canvas.line_to, Canvas.stroke]
